import Mathlib

/-!
# Mini Market API — verification of the cart engine and authentication gate

A shallow embedding of the Mini Market backend (src/app.py, src/models.py,
src/auth.py).  The mutable relational state (users, products, cart_items
tables) is modelled as explicit lists; each HTTP handler becomes a pure
function from state and request data to either an `HttpError` (mirroring
`HTTPException`) or a new state paired with the response body.

Monetary values (`Numeric(10,2)` columns converted to Python floats) are
modelled as exact rationals; Python's `round(x, 2)` is round-half-to-even
at two decimal places (`round2`).  All stored prices have exactly two
decimal digits, so no binary-float drift is observable at the two-decimal
boundary the API exposes.

Python's `str.strip` is modelled by `pyStrip` (structural recursion so the
kernel can evaluate it), and the case folding performed by SQL `ilike` by
`pyLower` applied to both sides (usernames contain no SQL wildcard
metacharacters in any scenario considered here).
-/

namespace MiniMarket

/-- Python `round(q, 2)` on exact rationals: round half to even, at the
level of hundredths.  Helper: round a rational to the nearest integer,
ties to even. -/
def roundHalfEven (q : ℚ) : ℤ :=
  if q - ⌊q⌋ < 1/2 then ⌊q⌋
  else if 1/2 < q - ⌊q⌋ then ⌊q⌋ + 1
  else if ⌊q⌋ % 2 = 0 then ⌊q⌋ else ⌊q⌋ + 1

/-- Python `round(q, 2)`: scale by 100, round half to even, scale back. -/
def round2 (q : ℚ) : ℚ := ((roundHalfEven (q * 100) : ℤ) : ℚ) / 100

/-- Characters stripped by Python `str.strip()`. -/
def isPySpace (c : Char) : Bool :=
  c = ' ' || c = '\t' || c = '\n' || c = '\r' || c = '\x0b' || c = '\x0c'

/-- Drop the longest prefix of characters satisfying `p`. -/
def dropLeading (p : Char → Bool) : List Char → List Char
  | [] => []
  | c :: cs => if p c then dropLeading p cs else c :: cs

/-- Python `str.strip()`: remove leading and trailing whitespace. -/
def pyStrip (s : String) : String :=
  ⟨((dropLeading isPySpace s.data).reverse |> dropLeading isPySpace).reverse⟩

/-- ASCII lower-casing, the case folding used to model SQL `ilike`. -/
def pyLower (s : String) : String := ⟨s.data.map Char.toLower⟩

/-- Case-insensitive username match: models
`User.username.ilike(username)` in `register` (src/app.py:414) for
usernames without SQL wildcard metacharacters. -/
def ilikeEq (a b : String) : Bool := pyLower a == pyLower b

/-- `users` table row (src/models.py `User`): id, unique username, bcrypt
password hash (opaque string). -/
structure User where
  id : Nat
  username : String
  password_hash : String
deriving DecidableEq, Repr

/-- `products` table row (src/models.py `Product`); `price` is the
`Numeric(10,2)` column as an exact rational. -/
structure Product where
  id : Nat
  name : String
  description : String
  price : ℚ
  unit : String
  category : String
  is_available : Bool
deriving DecidableEq, Repr

/-- `cart_items` table row (src/models.py `CartItem`), minus the surrogate
primary key, which no handler observes. -/
structure CartItem where
  user_id : Nat
  product_id : Nat
  quantity : Int
deriving DecidableEq, Repr

/-- The persistent state the handlers read and write: the three tables
relevant to the cart engine and the auth gate. -/
structure State where
  users : List User
  products : List Product
  cartItems : List CartItem
deriving DecidableEq, Repr

/-- An `HTTPException`: status code and detail string. -/
structure HttpError where
  status : Nat
  detail : String
deriving DecidableEq, Repr

/-- `HTTPException(404, "Product not found")` (src/app.py:543). -/
def productNotFoundError : HttpError := ⟨404, "Product not found"⟩

/-- Detail string of src/app.py:545 (`\x27` is the ASCII apostrophe). -/
def unavailableDetail (n : String) : String :=
  "Product \x27" ++ n ++ "\x27 is currently not available"

/-- `HTTPException(400, f"Product '{name}' is currently not available")`
(src/app.py:545). -/
def productUnavailableError (n : String) : HttpError := ⟨400, unavailableDetail n⟩

/-- `HTTPException(404, "Item not found in cart")` (src/app.py:587,614). -/
def itemNotInCartError : HttpError := ⟨404, "Item not found in cart"⟩

/-- `HTTPException(401, "Invalid username or password")`, raised
identically in both failure branches of `login` (src/app.py:436,439). -/
def invalidCredentialsError : HttpError := ⟨401, "Invalid username or password"⟩

/-- `HTTPException(400, "Username already exists")` (src/app.py:416). -/
def duplicateUserError : HttpError := ⟨400, "Username already exists"⟩

/-- Modelled from the spec: the rejection of an out-of-range quantity.
The range checks themselves are declared in the repository
(`CartItemIn.quantity: Field(ge=1, le=999)`, src/app.py:250, and
`Query(..., ge=0, le=999)`, src/app.py:573), but the HTTP encoding of a
failed request-validation is produced by the framework outside this
repository; the spec's error taxonomy maps `ValidationError`
(out-of-range quantity, `InvalidQuantity`) to status 400. -/
def invalidQuantityError : HttpError := ⟨400, "InvalidQuantity"⟩

/-- The row filter `CartItem.user_id == uid, CartItem.product_id == pid`. -/
def pairPred (uid pid : Nat) (c : CartItem) : Bool :=
  c.user_id == uid && c.product_id == pid

/-- `db.query(Product).filter(Product.id == pid).first()`. -/
def State.findProduct (st : State) (pid : Nat) : Option Product :=
  st.products.find? (fun p => p.id == pid)

/-- `db.query(CartItem).filter(CartItem.user_id == uid,
CartItem.product_id == pid).first()`. -/
def State.findCartItem (st : State) (uid pid : Nat) : Option CartItem :=
  st.cartItems.find? (pairPred uid pid)

/-- All cart rows of one user:
`db.query(CartItem).filter(CartItem.user_id == uid).all()`. -/
def cartLinesOf (st : State) (uid : Nat) : List CartItem :=
  st.cartItems.filter (fun c => c.user_id == uid)

/-- The cart rows of a user for one product (by the uniqueness invariant,
at most one in any reachable state). -/
def linesFor (st : State) (uid pid : Nat) : List CartItem :=
  st.cartItems.filter (pairPred uid pid)

/-- Apply `f` to the first element satisfying `p`, keep the rest: an ORM
in-place update of the row returned by `.first()`. -/
def updateFirst (p : α → Bool) (f : α → α) : List α → List α
  | [] => []
  | a :: as => if p a then f a :: as else a :: updateFirst p f as

/-- Remove the first element satisfying `p`: `db.delete(row)` of the row
returned by `.first()`. -/
def removeFirst (p : α → Bool) : List α → List α
  | [] => []
  | a :: as => if p a then as else a :: removeFirst p as

/-- One line of the `CartResponse` payload (`CartItemSimple`,
src/app.py:262). -/
structure CartItemSimple where
  product_id : Nat
  name : String
  price : ℚ
  quantity : Int
  line_total : ℚ
deriving DecidableEq, Repr

/-- `CartResponse` (src/app.py:271): items plus grand total. -/
structure CartResponse where
  items : List CartItemSimple
  total : ℚ
deriving DecidableEq, Repr

/-- One iteration of the loop in `_get_cart_items` (src/app.py:471-486):
resolve the line's product (the `cart_item.product` relationship); a line
whose product does not resolve is skipped (`if not product: continue`);
otherwise append the line's payload and add its rounded line total. -/
def cartStep (products : List Product) (acc : List CartItemSimple × ℚ)
    (c : CartItem) : List CartItemSimple × ℚ :=
  match products.find? (fun p => p.id == c.product_id) with
  | none => acc
  | some p =>
      let lt := round2 (p.price * (c.quantity : ℚ))
      (acc.1 ++ [⟨p.id, p.name, p.price, c.quantity, lt⟩], acc.2 + lt)

/-- `_get_cart_items(user, db)` (src/app.py:465-489): fold the user's cart
rows left to right starting from `items = []`, `total = 0.0`, then round
the grand total to two decimals. -/
def getCartItems (st : State) (uid : Nat) : CartResponse :=
  let r := (cartLinesOf st uid).foldl (cartStep st.products) ([], 0)
  ⟨r.1, round2 r.2⟩

/-- `GET /api/cart` (src/app.py:521-528): read-only, recomputes the
summary from the current state on every call. -/
def getCartEndpoint (st : State) (u : User) : CartResponse :=
  getCartItems st u.id

/-- The state change of the upsert in `add_cart_item` (src/app.py:547-565):
if the caller already has a row for the product, increment its quantity in
place (`cart_item.quantity += item.quantity`); otherwise insert a new row
(`db.add`). -/
def addState (st : State) (u : User) (pid : Nat) (qty : Int) : State :=
  match st.findCartItem u.id pid with
  | some _ =>
      { st with cartItems := (updateFirst (pairPred u.id pid)
          (fun c => { c with quantity := c.quantity + qty }) st.cartItems) }
  | none =>
      { st with cartItems := st.cartItems ++ [⟨u.id, pid, qty⟩] }

/-- The handler body of `POST /api/cart/items` (src/app.py:531-567),
after request validation: resolve the product (404 if absent, 400 if
unavailable), then upsert — increment the existing row's quantity, or
insert a new row — and return the refreshed summary. -/
def addCartItem (st : State) (u : User) (pid : Nat) (qty : Int) :
    Except HttpError (State × CartResponse) :=
  match st.findProduct pid with
  | none => .error productNotFoundError
  | some p =>
      if !p.is_available then .error (productUnavailableError p.name)
      else .ok (addState st u pid qty, getCartItems (addState st u pid qty) u.id)

/-- `POST /api/cart/items` including the `CartItemIn` request validation
`quantity: Field(ge=1, le=999)` (src/app.py:248-250). -/
def addItemEndpoint (st : State) (u : User) (pid : Nat) (qty : Int) :
    Except HttpError (State × CartResponse) :=
  if qty < 1 ∨ 999 < qty then .error invalidQuantityError
  else addCartItem st u pid qty

/-- The state change of `update_cart_item` (src/app.py:589-596) once the
row exists: quantity `<= 0` deletes the row (`db.delete`), otherwise the
stored quantity is overwritten (`cart_item.quantity = quantity`). -/
def patchState (st : State) (u : User) (pid : Nat) (qty : Int) : State :=
  if qty ≤ 0 then
    { st with cartItems := (removeFirst (pairPred u.id pid) st.cartItems) }
  else
    { st with cartItems := (updateFirst (pairPred u.id pid)
        (fun c => { c with quantity := qty }) st.cartItems) }

/-- The handler body of `PATCH /api/cart/items/{pid}` (src/app.py:581-598),
after request validation: 404 if the caller has no row for the product,
otherwise apply `patchState` and return the refreshed summary. -/
def updateCartItem (st : State) (u : User) (pid : Nat) (qty : Int) :
    Except HttpError (State × CartResponse) :=
  match st.findCartItem u.id pid with
  | none => .error itemNotInCartError
  | some _ => .ok (patchState st u pid qty, getCartItems (patchState st u pid qty) u.id)

/-- `PATCH /api/cart/items/{pid}` including the query validation
`quantity: int = Query(..., ge=0, le=999)` (src/app.py:573), which the
framework enforces before the handler body runs. -/
def patchItemEndpoint (st : State) (u : User) (pid : Nat) (qty : Int) :
    Except HttpError (State × CartResponse) :=
  if qty < 0 ∨ 999 < qty then .error invalidQuantityError
  else updateCartItem st u pid qty

/-- The state change of `remove_cart_item` (src/app.py:616): delete the
caller's row for the product. -/
def removeState (st : State) (u : User) (pid : Nat) : State :=
  { st with cartItems := (removeFirst (pairPred u.id pid) st.cartItems) }

/-- `DELETE /api/cart/items/{pid}` (src/app.py:601-619): 404 if the caller
has no row for the product, otherwise delete it and return the refreshed
summary. -/
def removeItemEndpoint (st : State) (u : User) (pid : Nat) :
    Except HttpError (State × CartResponse) :=
  match st.findCartItem u.id pid with
  | none => .error itemNotInCartError
  | some _ => .ok (removeState st u pid, getCartItems (removeState st u pid) u.id)

/-- Next autoincrement id for the `users` table. -/
def nextUserId (st : State) : Nat :=
  (st.users.map User.id).foldr max 0 + 1

/-- The handler body of `POST /api/auth/register` (src/app.py:409-427):
strip the username, reject (400) when some existing username matches
case-insensitively, else persist the new user with the hashed password.
`hashFn` abstracts `hash_password` (bcrypt, src/auth.py:23-25), which the
spec treats as an opaque one-way function. -/
def register (hashFn : String → String) (st : State) (username password : String) :
    Except HttpError (State × String) :=
  let uname := pyStrip username
  match st.users.find? (fun u => ilikeEq u.username uname) with
  | some _ => .error duplicateUserError
  | none =>
      .ok ({ st with users := st.users ++ [⟨nextUserId st, uname, hashFn password⟩] }, "ok")

/-- `POST /api/auth/register` including the `RegisterRequest` validation
`username: Field(min_length=3, max_length=50)`,
`password: Field(min_length=6, max_length=200)` (src/app.py:225-227);
the framework's encoding of a validation failure is modelled by the
spec's `ValidationError -> 400` mapping. -/
def registerEndpoint (hashFn : String → String) (st : State)
    (username password : String) : Except HttpError (State × String) :=
  if username.length < 3 ∨ 50 < username.length
      ∨ password.length < 6 ∨ 200 < password.length then
    .error ⟨400, "ValidationError"⟩
  else register hashFn st username password

/-- The handler of `POST /api/auth/login` (src/app.py:430-443): strip the
username, look it up with case-sensitive equality (`User.username ==
username`), fail 401 if absent, fail with the identical 401 if the
password does not verify, else issue a token for the username (token
issuance is opaque; the response's username field is returned).
`verify` abstracts `verify_password` (bcrypt, src/auth.py:28-30). -/
def login (verify : String → String → Bool) (st : State)
    (username password : String) : Except HttpError String :=
  let uname := pyStrip username
  match st.users.find? (fun u => u.username == uname) with
  | none => .error invalidCredentialsError
  | some u =>
      if !verify password u.password_hash then .error invalidCredentialsError
      else .ok uname

/-- The state a cart mutation leaves behind: the new state on success, the
old state on an error (an `HTTPException` aborts the handler before any
`db.commit()`). -/
def stateAfter (st : State) (r : Except HttpError (State × CartResponse)) : State :=
  match r with
  | .ok x => x.1
  | .error _ => st

/-- The (user, product) key of a cart row; the table's
`UniqueConstraint("user_id", "product_id")` (src/models.py:80) says these
keys are pairwise distinct. -/
def pairKey (c : CartItem) : Nat × Nat := (c.user_id, c.product_id)

/-- At most one cart row per (user, product) pair. -/
def uniquePairs (l : List CartItem) : Prop := (l.map pairKey).Nodup

/-- The contribution of one cart row to the summary: `none` when its
product id does not resolve in the catalog (the skipped case), otherwise
the payload line with `line_total = round(price * quantity, 2)`. -/
def lineItem (ps : List Product) (c : CartItem) : Option CartItemSimple :=
  (ps.find? (fun p => p.id == c.product_id)).map
    (fun p => ⟨p.id, p.name, p.price, c.quantity, round2 (p.price * (c.quantity : ℚ))⟩)

/-- A state keeping only the cart rows whose product id resolves: the
summary a client observes cannot tell it from the real state. -/
def dropDangling (st : State) : State :=
  { st with cartItems := st.cartItems.filter (fun c => (st.findProduct c.product_id).isSome) }

/-! ### Concrete fixtures for witnesses and counterexamples -/

/-- Seed product 1 (src/app.py:96-103). -/
def appleP : Product :=
  ⟨1, "Fresh Red Apples", "Crisp and juicy red apples", 249/100, "kg", "fruits", true⟩

/-- A catalog row whose `is_available` flag is off. -/
def sodaP : Product :=
  ⟨2, "Orange Juice", "Fresh orange juice", 299/100, "bottle", "drinks", false⟩

def aliceU : User := ⟨1, "alice", "bcrypt-of-secret1"⟩

def bobU : User := ⟨2, "bob", "bcrypt-of-hunter2"⟩

/-- Two registered users, two catalog rows, nobody has a cart row yet. -/
def demoEmpty : State := ⟨[aliceU, bobU], [appleP, sodaP], []⟩

/-- Same catalog, alice holds product 1 with quantity 2, bob holds
product 1 with quantity 4. -/
def demoLines : State := ⟨[aliceU, bobU], [appleP, sodaP], [⟨1, 1, 2⟩, ⟨2, 1, 4⟩]⟩

/-- A state with a dangling cart row: alice references product 77, which
is not in the catalog, besides her product 1 row. -/
def demoDangling : State := ⟨[aliceU, bobU], [appleP, sodaP], [⟨1, 1, 2⟩, ⟨1, 77, 3⟩]⟩

/-- One user whose stored username has an upper-case letter. -/
def caseState : State := ⟨[⟨1, "Alice", "bcrypt-of-secret1"⟩], [], []⟩

/-- A user list for exercising `login` failures. -/
def authState : State := ⟨[⟨1, "bob", "stored-hash"⟩], [], []⟩

/-- A concrete stand-in for the opaque bcrypt verifier, used only to
instantiate theorems that hold for every verifier. -/
def plainVerify : String → String → Bool := fun p h => p == h

/-- A concrete stand-in for the opaque bcrypt hasher. -/
def plainHash : String → String := fun p => p

/-! ## General lemmas about the list operations used by the handlers -/

theorem pairPred_eq_true {uid pid : Nat} {c : CartItem} :
    pairPred uid pid c = true ↔ c.user_id = uid ∧ c.product_id = pid := by
  simp [pairPred]

theorem filter_eq_nil_of_find?_none {α : Type} {p : α → Bool} {l : List α}
    (h : l.find? p = none) : l.filter p = [] :=
  List.filter_eq_nil_iff.2 (List.find?_eq_none.1 h)

theorem find?_of_filter_singleton {α : Type} {p : α → Bool} {l : List α} {a : α}
    (h : l.filter p = [a]) : l.find? p = some a ∧ p a = true := by
  induction l with
  | nil => simp at h
  | cons b t ih =>
      by_cases hb : p b = true
      · rw [List.filter_cons_of_pos hb] at h
        obtain ⟨rfl, ht⟩ : b = a ∧ t.filter p = [] := by simpa using h
        exact ⟨List.find?_cons_of_pos t hb, hb⟩
      · have hb2 : p b = false := by simpa using hb
        rw [List.filter_cons_of_neg (by simp [hb2])] at h
        rw [List.find?_cons_of_neg t (by simp [hb2])]
        exact ih h

theorem updateFirst_filter_singleton {α : Type} {p : α → Bool} {f : α → α}
    {l : List α} {a : α} (hpf : p (f a) = true) (h : l.filter p = [a]) :
    (updateFirst p f l).filter p = [f a] := by
  induction l with
  | nil => simp at h
  | cons b t ih =>
      by_cases hb : p b = true
      · rw [List.filter_cons_of_pos hb] at h
        obtain ⟨rfl, ht⟩ : b = a ∧ t.filter p = [] := by simpa using h
        simp [updateFirst, hb, List.filter_cons_of_pos hpf, ht]
      · have hb2 : p b = false := by simpa using hb
        rw [List.filter_cons_of_neg (by simp [hb2])] at h
        simp only [updateFirst, hb2, Bool.false_eq_true, if_false]
        rw [List.filter_cons_of_neg (by simp [hb2])]
        exact ih h

theorem filter_updateFirst_other {α : Type} {p q : α → Bool} {f : α → α}
    {l : List α} (hq : ∀ c, p c = true → q c = false)
    (hqf : ∀ c, p c = true → q (f c) = false) :
    (updateFirst p f l).filter q = l.filter q := by
  induction l with
  | nil => rfl
  | cons b t ih =>
      by_cases hb : p b = true
      · simp only [updateFirst, hb, if_true]
        rw [List.filter_cons_of_neg (by simp [hqf b hb]),
          List.filter_cons_of_neg (by simp [hq b hb])]
      · have hb2 : p b = false := by simpa using hb
        simp only [updateFirst, hb2, Bool.false_eq_true, if_false]
        rw [List.filter_cons, List.filter_cons, ih]

theorem map_updateFirst {α β : Type} (g : α → β) (p : α → Bool) (f : α → α)
    (l : List α) (hf : ∀ c, g (f c) = g c) :
    (updateFirst p f l).map g = l.map g := by
  induction l with
  | nil => rfl
  | cons b t ih =>
      by_cases hb : p b = true
      · simp [updateFirst, hb, hf b]
      · have hb2 : p b = false := by simpa using hb
        simp [updateFirst, hb2, ih]

theorem filter_removeFirst_other {α : Type} {p q : α → Bool} {l : List α}
    (hq : ∀ c, p c = true → q c = false) :
    (removeFirst p l).filter q = l.filter q := by
  induction l with
  | nil => rfl
  | cons b t ih =>
      by_cases hb : p b = true
      · simp only [removeFirst, hb, if_true]
        rw [List.filter_cons_of_neg (by simp [hq b hb])]
      · have hb2 : p b = false := by simpa using hb
        simp only [removeFirst, hb2, Bool.false_eq_true, if_false]
        rw [List.filter_cons, List.filter_cons, ih]

theorem removeFirst_filter_self {α : Type} {p : α → Bool} {l : List α} {a : α}
    (h : l.filter p = [a]) : (removeFirst p l).filter p = [] := by
  induction l with
  | nil => simp at h
  | cons b t ih =>
      by_cases hb : p b = true
      · rw [List.filter_cons_of_pos hb] at h
        obtain ⟨rfl, ht⟩ : b = a ∧ t.filter p = [] := by simpa using h
        simp only [removeFirst, hb, if_true]
        exact ht
      · have hb2 : p b = false := by simpa using hb
        rw [List.filter_cons_of_neg (by simp [hb2])] at h
        simp only [removeFirst, hb2, Bool.false_eq_true, if_false]
        rw [List.filter_cons_of_neg (by simp [hb2])]
        exact ih h

theorem removeFirst_sublist {α : Type} (p : α → Bool) (l : List α) :
    List.Sublist (removeFirst p l) l := by
  induction l with
  | nil => exact List.Sublist.refl []
  | cons b t ih =>
      by_cases hb : p b = true
      · simp only [removeFirst, hb, if_true]
        exact List.sublist_cons_self b t
      · have hb2 : p b = false := by simpa using hb
        simpa [removeFirst, hb2] using ih.cons₂ b

theorem find?_none_iff_filter_nil {α : Type} {p : α → Bool} {l : List α} :
    l.find? p = none ↔ l.filter p = [] :=
  List.find?_eq_none.trans List.filter_eq_nil_iff.symm

/-! ## The summary loop computes a sum of rounded line totals -/

theorem foldl_cartStep (ps : List Product) (l : List CartItem)
    (acc : List CartItemSimple × ℚ) :
    l.foldl (cartStep ps) acc =
      (acc.1 ++ l.filterMap (lineItem ps),
       acc.2 + ((l.filterMap (lineItem ps)).map CartItemSimple.line_total).sum) := by
  induction l generalizing acc with
  | nil => simp
  | cons c t ih =>
      rcases hf : ps.find? (fun p => p.id == c.product_id) with _ | p
      · have hl : lineItem ps c = none := by simp [lineItem, hf]
        have hstep : cartStep ps acc c = acc := by simp [cartStep, hf]
        simp only [List.foldl_cons, hstep, List.filterMap_cons, hl]
        exact ih acc
      · have hl : lineItem ps c =
            some ⟨p.id, p.name, p.price, c.quantity, round2 (p.price * (c.quantity : ℚ))⟩ := by
          simp [lineItem, hf]
        have hstep : cartStep ps acc c =
            (acc.1 ++ [⟨p.id, p.name, p.price, c.quantity, round2 (p.price * (c.quantity : ℚ))⟩],
             acc.2 + round2 (p.price * (c.quantity : ℚ))) := by
          simp [cartStep, hf]
        rw [List.foldl_cons, hstep, ih, List.filterMap_cons, hl]
        simp [add_assoc]

theorem getCartItems_eq (st : State) (uid : Nat) :
    getCartItems st uid =
      ⟨(cartLinesOf st uid).filterMap (lineItem st.products),
       round2 ((((cartLinesOf st uid).filterMap (lineItem st.products)).map
         CartItemSimple.line_total).sum)⟩ := by
  unfold getCartItems
  rw [foldl_cartStep]
  simp

theorem mem_cart_items {st : State} {uid : Nat} {it : CartItemSimple}
    (h : it ∈ (getCartItems st uid).items) :
    ∃ p, st.findProduct it.product_id = some p ∧ it.price = p.price ∧
      it.line_total = round2 (it.price * (it.quantity : ℚ)) := by
  rw [getCartItems_eq] at h
  rcases List.mem_filterMap.1 h with ⟨c, _, hli⟩
  unfold lineItem at hli
  rcases hfind : st.products.find? (fun p => p.id == c.product_id) with _ | p
  · rw [hfind] at hli
    simp at hli
  · rw [hfind] at hli
    have hit : (⟨p.id, p.name, p.price, c.quantity,
        round2 (p.price * (c.quantity : ℚ))⟩ : CartItemSimple) = it := by
      simpa using hli
    have hpc : p.id = c.product_id := by
      have := List.find?_some hfind
      simpa using this
    refine ⟨p, ?_, ?_, ?_⟩
    · rw [← hit]
      show st.products.find? (fun q => q.id == p.id) = some p
      rw [hpc]
      exact hfind
    · rw [← hit]
    · rw [← hit]

/-! ## Shapes of the handler results -/

theorem addItemEndpoint_valid {st : State} {u : User} {pid : Nat} {qty : Int}
    (h1 : 1 ≤ qty) (h2 : qty ≤ 999) :
    addItemEndpoint st u pid qty = addCartItem st u pid qty := by
  unfold addItemEndpoint
  rw [if_neg (by omega : ¬(qty < 1 ∨ 999 < qty))]

theorem addItemEndpoint_invalid {st : State} {u : User} {pid : Nat} {qty : Int}
    (h : qty < 1 ∨ 999 < qty) :
    addItemEndpoint st u pid qty = .error invalidQuantityError := by
  unfold addItemEndpoint
  rw [if_pos h]

theorem addCartItem_ok {st : State} {u : User} {pid : Nat} {qty : Int} {p : Product}
    (hp : st.findProduct pid = some p) (hav : p.is_available = true) :
    addCartItem st u pid qty =
      .ok (addState st u pid qty, getCartItems (addState st u pid qty) u.id) := by
  unfold addCartItem
  rw [hp]
  simp [hav]

theorem addCartItem_notFound {st : State} {u : User} {pid : Nat} {qty : Int}
    (hp : st.findProduct pid = none) :
    addCartItem st u pid qty = .error productNotFoundError := by
  unfold addCartItem
  rw [hp]

theorem addCartItem_unavailable {st : State} {u : User} {pid : Nat} {qty : Int}
    {p : Product} (hp : st.findProduct pid = some p) (hav : p.is_available = false) :
    addCartItem st u pid qty = .error (productUnavailableError p.name) := by
  unfold addCartItem
  rw [hp]
  simp [hav]

theorem updateCartItem_ok {st : State} {u : User} {pid : Nat} {qty : Int}
    {c0 : CartItem} (h : st.findCartItem u.id pid = some c0) :
    updateCartItem st u pid qty =
      .ok (patchState st u pid qty, getCartItems (patchState st u pid qty) u.id) := by
  unfold updateCartItem
  rw [h]

theorem updateCartItem_missing {st : State} {u : User} {pid : Nat} {qty : Int}
    (h : st.findCartItem u.id pid = none) :
    updateCartItem st u pid qty = .error itemNotInCartError := by
  unfold updateCartItem
  rw [h]

theorem patchItemEndpoint_valid {st : State} {u : User} {pid : Nat} {qty : Int}
    (h1 : 0 ≤ qty) (h2 : qty ≤ 999) :
    patchItemEndpoint st u pid qty = updateCartItem st u pid qty := by
  unfold patchItemEndpoint
  rw [if_neg (by omega : ¬(qty < 0 ∨ 999 < qty))]

theorem patchItemEndpoint_invalid {st : State} {u : User} {pid : Nat} {qty : Int}
    (h : qty < 0 ∨ 999 < qty) :
    patchItemEndpoint st u pid qty = .error invalidQuantityError := by
  unfold patchItemEndpoint
  rw [if_pos h]

theorem removeItemEndpoint_ok {st : State} {u : User} {pid : Nat}
    {c0 : CartItem} (h : st.findCartItem u.id pid = some c0) :
    removeItemEndpoint st u pid =
      .ok (removeState st u pid, getCartItems (removeState st u pid) u.id) := by
  unfold removeItemEndpoint
  rw [h]

theorem removeItemEndpoint_missing {st : State} {u : User} {pid : Nat}
    (h : st.findCartItem u.id pid = none) :
    removeItemEndpoint st u pid = .error itemNotInCartError := by
  unfold removeItemEndpoint
  rw [h]

/-! ## Effects of the three state updates on cart rows -/

theorem addState_none {st : State} {u : User} {pid : Nat} {qty : Int}
    (h : st.findCartItem u.id pid = none) :
    addState st u pid qty = { st with cartItems := st.cartItems ++ [⟨u.id, pid, qty⟩] } := by
  unfold addState
  rw [h]

theorem addState_some {st : State} {u : User} {pid : Nat} {qty : Int} {c0 : CartItem}
    (h : st.findCartItem u.id pid = some c0) :
    addState st u pid qty =
      { st with cartItems := (updateFirst (pairPred u.id pid)
          (fun c => { c with quantity := c.quantity + qty }) st.cartItems) } := by
  unfold addState
  rw [h]

theorem addState_users (st : State) (u : User) (pid : Nat) (qty : Int) :
    (addState st u pid qty).users = st.users := by
  unfold addState
  rcases st.findCartItem u.id pid <;> rfl

theorem addState_products (st : State) (u : User) (pid : Nat) (qty : Int) :
    (addState st u pid qty).products = st.products := by
  unfold addState
  rcases st.findCartItem u.id pid <;> rfl

theorem patchState_products (st : State) (u : User) (pid : Nat) (qty : Int) :
    (patchState st u pid qty).products = st.products := by
  unfold patchState
  split <;> rfl

theorem linesFor_addState_new {st : State} {u : User} {pid : Nat} {qty : Int}
    (h : linesFor st u.id pid = []) :
    linesFor (addState st u pid qty) u.id pid = [⟨u.id, pid, qty⟩] := by
  have hfind : st.findCartItem u.id pid = none := find?_none_iff_filter_nil.2 h
  rw [addState_none hfind]
  unfold linesFor at h ⊢
  rw [List.filter_append, h]
  simp [pairPred]

theorem linesFor_addState_inc {st : State} {u : User} {pid : Nat} {qty : Int}
    {c0 : CartItem} (h : linesFor st u.id pid = [c0]) :
    linesFor (addState st u pid qty) u.id pid = [⟨u.id, pid, c0.quantity + qty⟩] := by
  unfold linesFor at h
  obtain ⟨hfind, hc0⟩ := find?_of_filter_singleton h
  obtain ⟨hu, hp⟩ := pairPred_eq_true.1 hc0
  rw [addState_some hfind]
  unfold linesFor
  have hpf : pairPred u.id pid
      ({ c0 with quantity := c0.quantity + qty } : CartItem) = true :=
    pairPred_eq_true.2 ⟨hu, hp⟩
  rw [updateFirst_filter_singleton hpf h]
  simp [hu, hp]

theorem linesFor_patchState_del {st : State} {u : User} {pid : Nat} {qty : Int}
    {c0 : CartItem} (hq : qty ≤ 0) (h : linesFor st u.id pid = [c0]) :
    linesFor (patchState st u pid qty) u.id pid = [] := by
  unfold linesFor at h
  unfold patchState
  rw [if_pos hq]
  unfold linesFor
  exact removeFirst_filter_self h

theorem linesFor_patchState_set {st : State} {u : User} {pid : Nat} {qty : Int}
    {c0 : CartItem} (hq : 0 < qty) (h : linesFor st u.id pid = [c0]) :
    linesFor (patchState st u pid qty) u.id pid = [⟨u.id, pid, qty⟩] := by
  unfold linesFor at h
  obtain ⟨hfind, hc0⟩ := find?_of_filter_singleton h
  obtain ⟨hu, hp⟩ := pairPred_eq_true.1 hc0
  unfold patchState
  rw [if_neg (by omega : ¬qty ≤ 0)]
  unfold linesFor
  have hpf : pairPred u.id pid ({ c0 with quantity := qty } : CartItem) = true :=
    pairPred_eq_true.2 ⟨hu, hp⟩
  rw [updateFirst_filter_singleton hpf h]
  simp [hu, hp]

theorem linesFor_removeState {st : State} {u : User} {pid : Nat}
    {c0 : CartItem} (h : linesFor st u.id pid = [c0]) :
    linesFor (removeState st u pid) u.id pid = [] := by
  unfold linesFor at h
  unfold removeState linesFor
  exact removeFirst_filter_self h

/-! ## The claims -/

/-- C1: `add_item` is an additive upsert: for an authenticated user, an
available catalog product and valid quantities, an existing
(user, product) line is incremented by the requested quantity (never
overwritten), a missing line is created with that quantity, and
`add_item(u, p, q1)` followed by `add_item(u, p, q2)` leaves exactly one
line for (u, p) with quantity q1 + q2, with no upper clamp on the
cumulative quantity. -/
theorem C1_add_item_additive_upsert (st : State) (u : User) (p : Product)
    (q1 q2 : Int) (hp : st.findProduct p.id = some p) (hav : p.is_available = true)
    (h1a : 1 ≤ q1) (h1b : q1 ≤ 999) (h2a : 1 ≤ q2) (h2b : q2 ≤ 999) :
    (∀ c0, linesFor st u.id p.id = [c0] →
      ∃ st1 r1, addItemEndpoint st u p.id q2 = .ok (st1, r1) ∧
        linesFor st1 u.id p.id = [⟨u.id, p.id, c0.quantity + q2⟩]) ∧
    (linesFor st u.id p.id = [] →
      ∃ st1 r1, addItemEndpoint st u p.id q2 = .ok (st1, r1) ∧
        linesFor st1 u.id p.id = [⟨u.id, p.id, q2⟩]) ∧
    (linesFor st u.id p.id = [] →
      ∃ st1 r1 st2 r2, addItemEndpoint st u p.id q1 = .ok (st1, r1) ∧
        addItemEndpoint st1 u p.id q2 = .ok (st2, r2) ∧
        linesFor st2 u.id p.id = [⟨u.id, p.id, q1 + q2⟩]) := by
  refine ⟨?_, ?_, ?_⟩
  · intro c0 h
    refine ⟨addState st u p.id q2, getCartItems (addState st u p.id q2) u.id,
      ?_, linesFor_addState_inc h⟩
    rw [addItemEndpoint_valid h2a h2b, addCartItem_ok hp hav]
  · intro h
    refine ⟨addState st u p.id q2, getCartItems (addState st u p.id q2) u.id,
      ?_, linesFor_addState_new h⟩
    rw [addItemEndpoint_valid h2a h2b, addCartItem_ok hp hav]
  · intro h
    have hl1 : linesFor (addState st u p.id q1) u.id p.id = [⟨u.id, p.id, q1⟩] :=
      linesFor_addState_new h
    have hp1 : (addState st u p.id q1).findProduct p.id = some p := by
      unfold State.findProduct at hp ⊢
      rw [addState_products]
      exact hp
    refine ⟨addState st u p.id q1, getCartItems (addState st u p.id q1) u.id,
      addState (addState st u p.id q1) u p.id q2,
      getCartItems (addState (addState st u p.id q1) u p.id q2) u.id, ?_, ?_, ?_⟩
    · rw [addItemEndpoint_valid h1a h1b, addCartItem_ok hp hav]
    · rw [addItemEndpoint_valid h2a h2b, addCartItem_ok hp1 hav]
    · exact linesFor_addState_inc hl1

/-- Witness for C1: the spec's scenario — alice adds product 1 (price
2.49) with quantity 2 and then quantity 3: one line of quantity 5
results, with line total 12.45 and cart total 12.45. -/
theorem C1_add_item_additive_upsert_witness :
    (∃ st1 r1 st2 r2, addItemEndpoint demoEmpty aliceU 1 2 = .ok (st1, r1) ∧
      addItemEndpoint st1 aliceU 1 3 = .ok (st2, r2) ∧
      linesFor st2 aliceU.id 1 = [⟨aliceU.id, 1, 5⟩]) ∧
    getCartItems (addState (addState demoEmpty aliceU 1 2) aliceU 1 3) aliceU.id =
      ⟨[⟨1, "Fresh Red Apples", 249/100, 5, 1245/100⟩], 1245/100⟩ := by
  constructor
  · exact (C1_add_item_additive_upsert demoEmpty aliceU appleP 2 3 rfl rfl
      (by decide) (by decide) (by decide) (by decide)).2.2 rfl
  · have hst : addState (addState demoEmpty aliceU 1 2) aliceU 1 3 =
        ⟨[aliceU, bobU], [appleP, sodaP], [⟨1, 1, 5⟩]⟩ := rfl
    rw [hst, getCartItems_eq]
    norm_num [cartLinesOf, lineItem, appleP, sodaP, List.filter, List.filterMap,
      List.find?, round2, roundHalfEven]

/-- C2: for every user and cart state, the cart summary's total is the sum
over its lines of `round(unit_price * quantity, 2)` — each line rounded to
two decimals before summing, the grand total itself rounded to two
decimals — and every line is priced from the current catalog row, the
whole summary being recomputed from the state on each read. -/
theorem C2_total_is_rounded_sum (st : State) (u : User) :
    (getCartEndpoint st u).total =
      round2 ((((getCartEndpoint st u).items).map CartItemSimple.line_total).sum) ∧
    ∀ it ∈ (getCartEndpoint st u).items,
      it.line_total = round2 (it.price * (it.quantity : ℚ)) ∧
      ∃ p, st.findProduct it.product_id = some p ∧ it.price = p.price := by
  constructor
  · unfold getCartEndpoint
    rw [getCartItems_eq]
  · intro it hit
    obtain ⟨p, hfp, hpr, hlt⟩ := mem_cart_items hit
    exact ⟨hlt, p, hfp, hpr⟩

/-- Witness for C2: alice's cart in `demoLines` holds product 1 (price
2.49) with quantity 2; its one line satisfies the rounding and pricing
equations and the total is the rounded sum. -/
theorem C2_total_is_rounded_sum_witness :
    ((getCartEndpoint demoLines aliceU).total =
      round2 ((((getCartEndpoint demoLines aliceU).items).map
        CartItemSimple.line_total).sum)) ∧
    ((⟨1, "Fresh Red Apples", 249/100, 2, 498/100⟩ : CartItemSimple).line_total =
      round2 ((⟨1, "Fresh Red Apples", 249/100, 2, 498/100⟩ : CartItemSimple).price *
        (((⟨1, "Fresh Red Apples", 249/100, 2, 498/100⟩ : CartItemSimple).quantity : Int) : ℚ)) ∧
      ∃ p, demoLines.findProduct 1 = some p ∧ (249/100 : ℚ) = p.price) := by
  have hresp : getCartEndpoint demoLines aliceU =
      ⟨[⟨1, "Fresh Red Apples", 249/100, 2, 498/100⟩], 498/100⟩ := by
    unfold getCartEndpoint
    rw [getCartItems_eq]
    norm_num [cartLinesOf, lineItem, demoLines, appleP, sodaP, aliceU, List.filter,
      List.filterMap, List.find?, round2, roundHalfEven]
  refine ⟨(C2_total_is_rounded_sum demoLines aliceU).1, ?_⟩
  exact (C2_total_is_rounded_sum demoLines aliceU).2
    ⟨1, "Fresh Red Apples", 249/100, 2, 498/100⟩ (by rw [hresp]; simp)

theorem filterMap_lineItem_filter_resolvable (ps : List Product) (l : List CartItem) :
    (l.filter (fun c => (ps.find? (fun p => p.id == c.product_id)).isSome)).filterMap
      (lineItem ps) = l.filterMap (lineItem ps) := by
  induction l with
  | nil => rfl
  | cons c t ih =>
      rcases hf : ps.find? (fun p => p.id == c.product_id) with _ | p
      · have hl : lineItem ps c = none := by simp [lineItem, hf]
        simp only [List.filter_cons, hf, Option.isSome_none, Bool.false_eq_true,
          if_false, List.filterMap_cons, hl, ih]
      · simp only [List.filter_cons, hf, Option.isSome_some, if_true,
          List.filterMap_cons, ih]

theorem cartLines_dropDangling (st : State) (uid : Nat) :
    (cartLinesOf (dropDangling st) uid).filterMap (lineItem st.products) =
    (cartLinesOf st uid).filterMap (lineItem st.products) := by
  show ((st.cartItems.filter
      (fun c => (st.products.find? (fun p => p.id == c.product_id)).isSome)).filter
        (fun c => c.user_id == uid)).filterMap (lineItem st.products) =
    (st.cartItems.filter (fun c => c.user_id == uid)).filterMap (lineItem st.products)
  rw [List.filter_filter]
  rw [List.filter_congr (fun a _ => Bool.and_comm _ _)]
  rw [← List.filter_filter]
  exact filterMap_lineItem_filter_resolvable st.products
    (st.cartItems.filter (fun c => c.user_id == uid))

/-- C9: the cart summary computation is total: a cart line whose product
id has no match in the catalog is silently skipped — the summary equals
the one computed after discarding all dangling lines — and every reported
line's product id resolves in the catalog. -/
theorem C9_dangling_lines_skipped (st : State) (u : User) :
    getCartEndpoint st u = getCartEndpoint (dropDangling st) u ∧
    ∀ it ∈ (getCartEndpoint st u).items, (st.findProduct it.product_id).isSome := by
  constructor
  · unfold getCartEndpoint
    rw [getCartItems_eq, getCartItems_eq]
    have hps : (dropDangling st).products = st.products := rfl
    rw [hps, cartLines_dropDangling]
  · intro it hit
    obtain ⟨p, hfp, _, _⟩ := mem_cart_items hit
    rw [hfp]
    rfl

/-- Witness for C9: in `demoDangling`, alice holds product 1 (qty 2) and
the dangling product id 77; the summary is the same as in the state with
the dangling line removed, and its one reported line resolves. -/
theorem C9_dangling_lines_skipped_witness :
    getCartEndpoint demoDangling aliceU = getCartEndpoint (dropDangling demoDangling) aliceU ∧
    (demoDangling.findProduct
      ((⟨1, "Fresh Red Apples", 249/100, 2, 498/100⟩ : CartItemSimple).product_id)).isSome := by
  have hresp : getCartEndpoint demoDangling aliceU =
      ⟨[⟨1, "Fresh Red Apples", 249/100, 2, 498/100⟩], 498/100⟩ := by
    have hli1 : lineItem [appleP, sodaP] ⟨1, 1, 2⟩ =
        some ⟨1, "Fresh Red Apples", 249/100, 2,
          round2 (249/100 * (((2 : Int)) : ℚ))⟩ := rfl
    have hli77 : lineItem [appleP, sodaP] ⟨1, 77, 3⟩ = none := rfl
    have hlines : cartLinesOf demoDangling aliceU.id = [⟨1, 1, 2⟩, ⟨1, 77, 3⟩] := rfl
    have hps : demoDangling.products = [appleP, sodaP] := rfl
    unfold getCartEndpoint
    rw [getCartItems_eq, hps, hlines]
    simp only [List.filterMap_cons, hli1, hli77, List.filterMap_nil]
    norm_num [round2, roundHalfEven]
  refine ⟨(C9_dangling_lines_skipped demoDangling aliceU).1, ?_⟩
  exact (C9_dangling_lines_skipped demoDangling aliceU).2
    ⟨1, "Fresh Red Apples", 249/100, 2, 498/100⟩ (by rw [hresp]; simp)

/-! ## Which states a mutation can leave behind -/

theorem stateAfter_addItemEndpoint (st : State) (u : User) (pid : Nat) (qty : Int) :
    stateAfter st (addItemEndpoint st u pid qty) = st ∨
    stateAfter st (addItemEndpoint st u pid qty) = addState st u pid qty := by
  by_cases hv : qty < 1 ∨ 999 < qty
  · left
    rw [addItemEndpoint_invalid hv]
    exact rfl
  · rw [addItemEndpoint_valid (by omega) (by omega)]
    rcases hp : st.findProduct pid with _ | p
    · left
      rw [addCartItem_notFound hp]
      exact rfl
    · cases hav : p.is_available with
      | false =>
          left
          rw [addCartItem_unavailable hp hav]
          exact rfl
      | true =>
          right
          rw [addCartItem_ok hp hav]
          exact rfl

theorem stateAfter_patchItemEndpoint (st : State) (u : User) (pid : Nat) (qty : Int) :
    stateAfter st (patchItemEndpoint st u pid qty) = st ∨
    stateAfter st (patchItemEndpoint st u pid qty) = patchState st u pid qty := by
  by_cases hv : qty < 0 ∨ 999 < qty
  · left
    rw [patchItemEndpoint_invalid hv]
    exact rfl
  · rw [patchItemEndpoint_valid (by omega) (by omega)]
    rcases hc : st.findCartItem u.id pid with _ | c0
    · left
      rw [updateCartItem_missing hc]
      exact rfl
    · right
      rw [updateCartItem_ok hc]
      exact rfl

theorem stateAfter_removeItemEndpoint (st : State) (u : User) (pid : Nat) :
    stateAfter st (removeItemEndpoint st u pid) = st ∨
    stateAfter st (removeItemEndpoint st u pid) = removeState st u pid := by
  rcases hc : st.findCartItem u.id pid with _ | c0
  · left
    rw [removeItemEndpoint_missing hc]
    exact rfl
  · right
    rw [removeItemEndpoint_ok hc]
    exact rfl

/-! ## Preservation of the (user, product) uniqueness invariant -/

theorem uniquePairs_addState {st : State} {u : User} {pid : Nat} {qty : Int}
    (h : uniquePairs st.cartItems) : uniquePairs (addState st u pid qty).cartItems := by
  unfold addState
  rcases hfind : st.findCartItem u.id pid with _ | c0
  · show uniquePairs (st.cartItems ++ [⟨u.id, pid, qty⟩])
    unfold uniquePairs at h ⊢
    rw [List.map_append, List.nodup_append]
    refine ⟨h, List.nodup_singleton _, ?_⟩
    intro x hx hx2
    have hxk : x = (u.id, pid) := by simpa [pairKey] using hx2
    obtain ⟨c, hc, hck⟩ := List.mem_map.1 hx
    have hnone := List.find?_eq_none.1 hfind c hc
    apply hnone
    rw [pairPred_eq_true]
    have hpair : (c.user_id, c.product_id) = (u.id, pid) := by
      rw [← hxk, ← hck]
      exact rfl
    exact ⟨congrArg Prod.fst hpair, congrArg Prod.snd hpair⟩
  · show uniquePairs (updateFirst (pairPred u.id pid)
        (fun c => { c with quantity := c.quantity + qty }) st.cartItems)
    unfold uniquePairs at h ⊢
    rw [map_updateFirst pairKey (pairPred u.id pid)
      (fun c => { c with quantity := c.quantity + qty }) st.cartItems (fun c => rfl)]
    exact h

theorem uniquePairs_patchState {st : State} {u : User} {pid : Nat} {qty : Int}
    (h : uniquePairs st.cartItems) : uniquePairs (patchState st u pid qty).cartItems := by
  unfold patchState
  split
  · show uniquePairs (removeFirst (pairPred u.id pid) st.cartItems)
    exact List.Nodup.sublist ((removeFirst_sublist _ _).map pairKey) h
  · show uniquePairs (updateFirst (pairPred u.id pid)
        (fun c => { c with quantity := qty }) st.cartItems)
    unfold uniquePairs at h ⊢
    rw [map_updateFirst pairKey (pairPred u.id pid)
      (fun c => { c with quantity := qty }) st.cartItems (fun c => rfl)]
    exact h

theorem uniquePairs_removeState {st : State} {u : User} {pid : Nat}
    (h : uniquePairs st.cartItems) : uniquePairs (removeState st u pid).cartItems :=
  List.Nodup.sublist ((removeFirst_sublist _ _).map pairKey) h

/-- C3: every cart mutation — add, set-quantity, remove — preserves the
invariant that each user has at most one cart line per product; duplicate
rows for a (user, product) pair are never created. -/
theorem C3_at_most_one_line_per_pair (st : State) (u : User) (pid : Nat) (qty : Int)
    (h : uniquePairs st.cartItems) :
    uniquePairs ((stateAfter st (addItemEndpoint st u pid qty)).cartItems) ∧
    uniquePairs ((stateAfter st (patchItemEndpoint st u pid qty)).cartItems) ∧
    uniquePairs ((stateAfter st (removeItemEndpoint st u pid)).cartItems) := by
  refine ⟨?_, ?_, ?_⟩
  · rcases stateAfter_addItemEndpoint st u pid qty with he | he <;> rw [he]
    · exact h
    · exact uniquePairs_addState h
  · rcases stateAfter_patchItemEndpoint st u pid qty with he | he <;> rw [he]
    · exact h
    · exact uniquePairs_patchState h
  · rcases stateAfter_removeItemEndpoint st u pid with he | he <;> rw [he]
    · exact h
    · exact uniquePairs_removeState h

/-- Witness for C3: in `demoLines` (one line each for alice and bob) the
invariant holds and is preserved by alice adding product 1 with quantity
3, patching it to quantity 3, and removing it. -/
theorem C3_at_most_one_line_per_pair_witness :
    uniquePairs ((stateAfter demoLines (addItemEndpoint demoLines aliceU 1 3)).cartItems) ∧
    uniquePairs ((stateAfter demoLines (patchItemEndpoint demoLines aliceU 1 3)).cartItems) ∧
    uniquePairs ((stateAfter demoLines (removeItemEndpoint demoLines aliceU 1)).cartItems) :=
  C3_at_most_one_line_per_pair demoLines aliceU 1 3 (by unfold uniquePairs; decide)

/-! ## Frame: a user's mutations never touch another user's rows -/

theorem pairPred_user_ne {u : User} {pid uid2 : Nat} (h : u.id ≠ uid2) :
    ∀ c : CartItem, pairPred u.id pid c = true → (c.user_id == uid2) = false := by
  intro c hc
  obtain ⟨hu, _⟩ := pairPred_eq_true.1 hc
  rw [hu]
  exact beq_eq_false_iff_ne.2 h

theorem cartLinesOf_addState_other {st : State} {u : User} {pid : Nat} {qty : Int}
    {uid2 : Nat} (h : u.id ≠ uid2) :
    cartLinesOf (addState st u pid qty) uid2 = cartLinesOf st uid2 := by
  unfold addState
  rcases hfind : st.findCartItem u.id pid with _ | c0
  · show (st.cartItems ++ [(⟨u.id, pid, qty⟩ : CartItem)]).filter (fun c => c.user_id == uid2) =
      st.cartItems.filter (fun c => c.user_id == uid2)
    rw [List.filter_append]
    have hnew : ((⟨u.id, pid, qty⟩ : CartItem).user_id == uid2) = false := by
      apply pairPred_user_ne h
      rw [pairPred_eq_true]
      exact ⟨rfl, rfl⟩
    simp [hnew]
  · show (updateFirst (pairPred u.id pid)
        (fun c => { c with quantity := c.quantity + qty }) st.cartItems).filter
          (fun c => c.user_id == uid2) =
      st.cartItems.filter (fun c => c.user_id == uid2)
    exact filter_updateFirst_other (pairPred_user_ne h) (fun c hc => pairPred_user_ne h c hc)

theorem cartLinesOf_patchState_other {st : State} {u : User} {pid : Nat} {qty : Int}
    {uid2 : Nat} (h : u.id ≠ uid2) :
    cartLinesOf (patchState st u pid qty) uid2 = cartLinesOf st uid2 := by
  unfold patchState
  split
  · show (removeFirst (pairPred u.id pid) st.cartItems).filter (fun c => c.user_id == uid2) =
      st.cartItems.filter (fun c => c.user_id == uid2)
    exact filter_removeFirst_other (pairPred_user_ne h)
  · show (updateFirst (pairPred u.id pid)
        (fun c => { c with quantity := qty }) st.cartItems).filter
          (fun c => c.user_id == uid2) =
      st.cartItems.filter (fun c => c.user_id == uid2)
    exact filter_updateFirst_other (pairPred_user_ne h) (fun c hc => pairPred_user_ne h c hc)

theorem cartLinesOf_removeState_other {st : State} {u : User} {pid : Nat}
    {uid2 : Nat} (h : u.id ≠ uid2) :
    cartLinesOf (removeState st u pid) uid2 = cartLinesOf st uid2 := by
  show (removeFirst (pairPred u.id pid) st.cartItems).filter (fun c => c.user_id == uid2) =
    st.cartItems.filter (fun c => c.user_id == uid2)
  exact filter_removeFirst_other (pairPred_user_ne h)

/-- C8: cart isolation — a cart mutation performed by one authenticated
user (add, set-quantity, remove), whether it succeeds or fails, leaves
every other user's cart lines unchanged; the operations target only the
caller's own identity. -/
theorem C8_cart_isolation (st : State) (u : User) (pid : Nat) (qty : Int)
    (uid2 : Nat) (h : u.id ≠ uid2) :
    cartLinesOf (stateAfter st (addItemEndpoint st u pid qty)) uid2 = cartLinesOf st uid2 ∧
    cartLinesOf (stateAfter st (patchItemEndpoint st u pid qty)) uid2 = cartLinesOf st uid2 ∧
    cartLinesOf (stateAfter st (removeItemEndpoint st u pid)) uid2 = cartLinesOf st uid2 := by
  refine ⟨?_, ?_, ?_⟩
  · rcases stateAfter_addItemEndpoint st u pid qty with he | he <;> rw [he]
    exact cartLinesOf_addState_other h
  · rcases stateAfter_patchItemEndpoint st u pid qty with he | he <;> rw [he]
    exact cartLinesOf_patchState_other h
  · rcases stateAfter_removeItemEndpoint st u pid with he | he <;> rw [he]
    exact cartLinesOf_removeState_other h

/-- Witness for C8: alice's add / patch / remove of product 1 in
`demoLines` leave bob's cart lines untouched. -/
theorem C8_cart_isolation_witness :
    cartLinesOf (stateAfter demoLines (addItemEndpoint demoLines aliceU 1 3)) 2 =
      cartLinesOf demoLines 2 ∧
    cartLinesOf (stateAfter demoLines (patchItemEndpoint demoLines aliceU 1 3)) 2 =
      cartLinesOf demoLines 2 ∧
    cartLinesOf (stateAfter demoLines (removeItemEndpoint demoLines aliceU 1)) 2 =
      cartLinesOf demoLines 2 :=
  C8_cart_isolation demoLines aliceU 1 3 2 (by decide)

/-- Counterexample to C4 as stated: alice's line for product 1 exists in
`demoLines` (quantity 2), yet the PATCH request with quantity -1 — a
quantity <= 0, which the claim says is treated as an implicit delete — is
rejected by the endpoint's `Query(ge=0)` validation (src/app.py:573) and
deletes nothing. -/
theorem C4_counterexample :
    linesFor demoLines aliceU.id 1 = [⟨1, 1, 2⟩] ∧
    patchItemEndpoint demoLines aliceU 1 (-1) = .error invalidQuantityError := by
  refine ⟨by decide, ?_⟩
  exact patchItemEndpoint_invalid (Or.inl (by decide))

/-- C4 (amended): `set_item_quantity` requires an existing cart line for
the caller and the product, failing with ItemNotInCart (404) otherwise;
negative quantities are rejected by the `ge=0` request validation before
the handler runs, quantity 0 is treated as an implicit delete of the
line, and every quantity in [1,999] overwrites the stored quantity —
consistent with `remove_item`, which deletes the line. -/
theorem findCartItem_of_linesFor_singleton {st : State} {u : User} {pid : Nat}
    {c0 : CartItem} (h : linesFor st u.id pid = [c0]) :
    st.findCartItem u.id pid = some c0 := by
  unfold linesFor at h
  exact (find?_of_filter_singleton h).1

theorem C4_set_quantity_policy (st : State) (u : User) (pid : Nat) (qty : Int) :
    (qty < 0 ∨ 999 < qty →
      patchItemEndpoint st u pid qty = .error invalidQuantityError) ∧
    (0 ≤ qty → qty ≤ 999 → st.findCartItem u.id pid = none →
      patchItemEndpoint st u pid qty = .error itemNotInCartError ∧
      itemNotInCartError.status = 404) ∧
    (∀ c0, linesFor st u.id pid = [c0] → qty = 0 →
      ∃ st2 r2, patchItemEndpoint st u pid qty = .ok (st2, r2) ∧
        linesFor st2 u.id pid = []) ∧
    (∀ c0, linesFor st u.id pid = [c0] → 1 ≤ qty → qty ≤ 999 →
      ∃ st2 r2, patchItemEndpoint st u pid qty = .ok (st2, r2) ∧
        linesFor st2 u.id pid = [⟨u.id, pid, qty⟩]) ∧
    (∀ c0, linesFor st u.id pid = [c0] →
      ∃ st2 r2, removeItemEndpoint st u pid = .ok (st2, r2) ∧
        linesFor st2 u.id pid = []) := by
  refine ⟨fun hv => patchItemEndpoint_invalid hv, ?_, ?_, ?_, ?_⟩
  · intro h0 h999 hmiss
    exact ⟨by rw [patchItemEndpoint_valid h0 h999, updateCartItem_missing hmiss], rfl⟩
  · intro c0 h hq0
    have hfind := findCartItem_of_linesFor_singleton h
    refine ⟨patchState st u pid qty, getCartItems (patchState st u pid qty) u.id, ?_, ?_⟩
    · rw [patchItemEndpoint_valid (by omega) (by omega), updateCartItem_ok hfind]
    · exact linesFor_patchState_del (by omega) h
  · intro c0 h hq1 hq999
    have hfind := findCartItem_of_linesFor_singleton h
    refine ⟨patchState st u pid qty, getCartItems (patchState st u pid qty) u.id, ?_, ?_⟩
    · rw [patchItemEndpoint_valid (by omega) (by omega), updateCartItem_ok hfind]
    · exact linesFor_patchState_set (by omega) h
  · intro c0 h
    have hfind := findCartItem_of_linesFor_singleton h
    refine ⟨removeState st u pid, getCartItems (removeState st u pid) u.id, ?_, ?_⟩
    · rw [removeItemEndpoint_ok hfind]
    · exact linesFor_removeState h

/-- Witness for the amended C4, on `demoLines` where alice holds product 1
with quantity 2: quantity 1000 is rejected, patching an absent product
(id 2) 404s, quantity 0 deletes the line, quantity 7 overwrites it, and
remove deletes it. -/
theorem C4_set_quantity_policy_witness :
    patchItemEndpoint demoLines aliceU 1 1000 = .error invalidQuantityError ∧
    (patchItemEndpoint demoLines aliceU 2 5 = .error itemNotInCartError ∧
      itemNotInCartError.status = 404) ∧
    (∃ st2 r2, patchItemEndpoint demoLines aliceU 1 0 = .ok (st2, r2) ∧
      linesFor st2 aliceU.id 1 = []) ∧
    (∃ st2 r2, patchItemEndpoint demoLines aliceU 1 7 = .ok (st2, r2) ∧
      linesFor st2 aliceU.id 1 = [⟨aliceU.id, 1, 7⟩]) ∧
    (∃ st2 r2, removeItemEndpoint demoLines aliceU 1 = .ok (st2, r2) ∧
      linesFor st2 aliceU.id 1 = []) :=
  ⟨(C4_set_quantity_policy demoLines aliceU 1 1000).1 (Or.inr (by decide)),
   (C4_set_quantity_policy demoLines aliceU 2 5).2.1 (by decide) (by decide) rfl,
   (C4_set_quantity_policy demoLines aliceU 1 0).2.2.1 ⟨1, 1, 2⟩ (by decide) rfl,
   (C4_set_quantity_policy demoLines aliceU 1 7).2.2.2.1 ⟨1, 1, 2⟩ (by decide)
     (by decide) (by decide),
   (C4_set_quantity_policy demoLines aliceU 1 0).2.2.2.2 ⟨1, 1, 2⟩ (by decide)⟩

/-- C5: with a valid quantity, `add_item` fails with 404 "Product not
found" when the product id does not resolve, and with the 400
unavailability error when the product exists but `is_available` is false
— regardless of the requested quantity — and in both cases the state is
unchanged. -/
theorem C5_add_item_product_errors (st : State) (u : User) (pid : Nat) (qty : Int)
    (h1 : 1 ≤ qty) (h2 : qty ≤ 999) :
    (st.findProduct pid = none →
      addItemEndpoint st u pid qty = .error productNotFoundError ∧
      productNotFoundError.status = 404 ∧
      stateAfter st (addItemEndpoint st u pid qty) = st) ∧
    (∀ p, st.findProduct pid = some p → p.is_available = false →
      addItemEndpoint st u pid qty = .error (productUnavailableError p.name) ∧
      (productUnavailableError p.name).status = 400 ∧
      stateAfter st (addItemEndpoint st u pid qty) = st) := by
  constructor
  · intro hp
    have he : addItemEndpoint st u pid qty = .error productNotFoundError := by
      rw [addItemEndpoint_valid h1 h2, addCartItem_notFound hp]
    exact ⟨he, rfl, by rw [he]; exact rfl⟩
  · intro p hp hav
    have he : addItemEndpoint st u pid qty = .error (productUnavailableError p.name) := by
      rw [addItemEndpoint_valid h1 h2, addCartItem_unavailable hp hav]
    exact ⟨he, rfl, by rw [he]; exact rfl⟩

/-- Witness for C5: adding the nonexistent product 999 yields the 404,
adding the unavailable product 2 yields the 400, both leaving `demoEmpty`
unchanged. -/
theorem C5_add_item_product_errors_witness :
    (addItemEndpoint demoEmpty aliceU 999 5 = .error productNotFoundError ∧
      productNotFoundError.status = 404 ∧
      stateAfter demoEmpty (addItemEndpoint demoEmpty aliceU 999 5) = demoEmpty) ∧
    (addItemEndpoint demoEmpty aliceU 2 5 = .error (productUnavailableError sodaP.name) ∧
      (productUnavailableError sodaP.name).status = 400 ∧
      stateAfter demoEmpty (addItemEndpoint demoEmpty aliceU 2 5) = demoEmpty) :=
  ⟨(C5_add_item_product_errors demoEmpty aliceU 999 5 (by decide) (by decide)).1 rfl,
   (C5_add_item_product_errors demoEmpty aliceU 2 5 (by decide) (by decide)).2 sodaP rfl rfl⟩

/-- C6: `add_item` rejects every quantity outside [1, 999] with the
InvalidQuantity validation error, mapped to status 400, leaving the cart
unchanged. -/
theorem C6_quantity_validation (st : State) (u : User) (pid : Nat) (qty : Int)
    (h : qty < 1 ∨ 999 < qty) :
    addItemEndpoint st u pid qty = .error invalidQuantityError ∧
    invalidQuantityError.status = 400 ∧
    stateAfter st (addItemEndpoint st u pid qty) = st := by
  have he : addItemEndpoint st u pid qty = .error invalidQuantityError :=
    addItemEndpoint_invalid h
  exact ⟨he, rfl, by rw [he]; exact rfl⟩

/-- Witness for C6: quantity 1000 is rejected with the 400 validation
error and `demoEmpty` is unchanged. -/
theorem C6_quantity_validation_witness :
    addItemEndpoint demoEmpty aliceU 1 1000 = .error invalidQuantityError ∧
    invalidQuantityError.status = 400 ∧
    stateAfter demoEmpty (addItemEndpoint demoEmpty aliceU 1 1000) = demoEmpty :=
  C6_quantity_validation demoEmpty aliceU 1 1000 (Or.inr (by decide))

/-- C7: `login` with an unknown username and `login` with a wrong password
for an existing username fail with the identical error — the same 401
status and the same "Invalid username or password" detail — for every
password verifier. -/
theorem C7_login_single_error (verify : String → String → Bool) (st : State)
    (uname pw : String) :
    (st.users.find? (fun w => w.username == pyStrip uname) = none →
      login verify st uname pw = .error invalidCredentialsError) ∧
    (∀ w, st.users.find? (fun w2 => w2.username == pyStrip uname) = some w →
      verify pw w.password_hash = false →
      login verify st uname pw = .error invalidCredentialsError) ∧
    invalidCredentialsError = ⟨401, "Invalid username or password"⟩ := by
  refine ⟨?_, ?_, rfl⟩
  · intro h
    simp only [login]
    rw [h]
  · intro w hw hv
    simp only [login]
    rw [hw]
    simp [hv]

/-- Witness for C7: against `authState` (one user "bob"), logging in as
the unknown "carol" and logging in as "bob" with a wrong password produce
the very same error value. -/
theorem C7_login_single_error_witness :
    login plainVerify authState "carol" "whatever" = .error invalidCredentialsError ∧
    login plainVerify authState "bob" "wrongpass" = .error invalidCredentialsError ∧
    invalidCredentialsError = ⟨401, "Invalid username or password"⟩ :=
  ⟨(C7_login_single_error plainVerify authState "carol" "whatever").1 (by decide),
   (C7_login_single_error plainVerify authState "bob" "wrongpass").2.1
     ⟨1, "bob", "stored-hash"⟩ (by decide) (by decide),
   rfl⟩

/-- C10: login matches usernames case-sensitively while registration
rejects case-insensitive matches: in any state that contains a user whose
username lower-cases to "alice" but none spelled exactly "alice", a login
as "alice" fails with InvalidCredentials (for any password and verifier)
even though "alice" itself cannot be registered (DuplicateUser). -/
theorem C10_login_case_sensitive_register_insensitive
    (hashFn : String → String) (verify : String → String → Bool) (st : State)
    (pw pw2 : String) (hlen1 : 6 ≤ pw2.length) (hlen2 : pw2.length ≤ 200)
    (hex : ∃ w ∈ st.users, pyLower w.username = "alice")
    (hnone : ∀ w ∈ st.users, w.username ≠ "alice") :
    login verify st "alice" pw = .error invalidCredentialsError ∧
    registerEndpoint hashFn st "alice" pw2 = .error duplicateUserError := by
  have hstrip : pyStrip "alice" = "alice" := rfl
  have hlow : pyLower "alice" = "alice" := rfl
  constructor
  · simp only [login]
    have hfind : st.users.find? (fun w => w.username == pyStrip "alice") = none := by
      rw [List.find?_eq_none]
      intro w hw
      rw [hstrip]
      simp only [beq_iff_eq]
      exact hnone w hw
    rw [hfind]
  · unfold registerEndpoint
    rw [if_neg (by rw [show ("alice").length = 5 from rfl]; omega)]
    simp only [register]
    obtain ⟨w, hw, hlw⟩ := hex
    rcases hf : st.users.find? (fun u => ilikeEq u.username (pyStrip "alice")) with _ | w2
    · exfalso
      apply List.find?_eq_none.1 hf w hw
      show ilikeEq w.username (pyStrip "alice") = true
      rw [hstrip]
      unfold ilikeEq
      rw [hlw, hlow]
      exact beq_self_eq_true _
    · rw [hf]

/-- Witness for C10: `caseState` stores the user "Alice"; logging in as
"alice" fails with InvalidCredentials while registering "alice" fails
with DuplicateUser. -/
theorem C10_login_case_sensitive_register_insensitive_witness :
    login plainVerify caseState "alice" "secret1" = .error invalidCredentialsError ∧
    registerEndpoint plainHash caseState "alice" "secret1" = .error duplicateUserError :=
  C10_login_case_sensitive_register_insensitive plainHash plainVerify caseState
    "secret1" "secret1" (by decide) (by decide)
    ⟨⟨1, "Alice", "bcrypt-of-secret1"⟩, by decide, by decide⟩ (by decide)

end MiniMarket
